import Mathlib

/-!
Shallow embedding of the RAG_site chat client (src/src/App.tsx and
src/src/main.tsx / theme module) and proofs about its behaviour.

The React component state is modelled as an explicit `AppState` record; every
event handler becomes a pure function from state to state.  The asynchronous
`fetch` inside `submitMessage` is modelled by passing the outcome of the
network interaction (`NetResult`) as an oracle argument; the function returns
the final state together with the outbound request it issued (`none` when no
network call was made).  `crypto.randomUUID` is modelled by a fresh-name
counter `nextId` threaded through the state.
-/

namespace RagSite

/-- `type Role = 'user' | 'assistant' | 'error'` (App.tsx line 7). -/
inductive Role where
  | user
  | assistant
  | error
  deriving DecidableEq

/-- `type Mode = 'gpt' | 'rag'` (App.tsx line 8). -/
inductive Mode where
  | gpt
  | rag
  deriving DecidableEq

/-- `interface ChatMessage` (App.tsx lines 25-30).  Ids are modelled as
natural numbers drawn from the fresh-name counter. -/
structure ChatMessage where
  id : Nat
  role : Role
  content : String
  meta : Option String := none
  deriving DecidableEq

/-- `interface SelectedDocument` (App.tsx lines 32-37). -/
structure SelectedDocument where
  id : String
  title : String
  category : String
  meta : Option String := none
  deriving DecidableEq

/-- The component state of `App` (App.tsx lines 165-173), restricted to the
fields the handlers under verification read or write, plus the fresh-id
counter standing for `crypto.randomUUID`. -/
structure AppState where
  mode : Mode
  messages : List ChatMessage
  inputValue : String
  isLoading : Bool
  stickToBottom : Bool
  isDrawerOpen : Bool
  selectedDocs : List SelectedDocument
  selectedMenuOpen : Bool
  toast : Option String
  nextId : Nat
  deriving DecidableEq

/-- The two environment settings (App.tsx lines 41-42).  `import.meta.env`
values default to `''` via `?? ''`, so an unset variable is the empty
string. -/
structure Config where
  apiBase : String
  chatEndpoint : String
  deriving DecidableEq

/-- JS `String.prototype.trim`: strip leading and trailing whitespace.
Modelled directly over the character list by structural recursion. -/
def strTrim (s : String) : String :=
  ⟨((s.data.dropWhile Char.isWhitespace).reverse.dropWhile Char.isWhitespace).reverse⟩

/-- `const canSend = inputValue.trim().length > 0 && !isLoading` (line 177). -/
def canSend (s : AppState) : Bool :=
  decide (0 < (strTrim s.inputValue).length) && !s.isLoading

/-- `const requestUrl = useMemo(() => (!apiBase || !chatEndpoint ? null :
apiBase + chatEndpoint), [])` (line 229); a JS string is falsy exactly when
it is empty. -/
def requestUrl (cfg : Config) : Option String :=
  if cfg.apiBase = "" || cfg.chatEndpoint = "" then none
  else some (cfg.apiBase ++ cfg.chatEndpoint)

/-- `createErrorMessage` (lines 231-236): error-role message carrying the
reason and, as `meta`, the attempted URL or the fallback text. -/
def createErrorMessage (id : Nat) (reason : String) (requestUrlValue : Option String) :
    ChatMessage :=
  { id := id
    role := Role.error
    content := reason
    meta := some (requestUrlValue.getD "URL не задан") }

/-- `resetUiState` (lines 238-243). -/
def resetUiState (s : AppState) : AppState :=
  { s with
    messages := []
    selectedDocs := []
    isDrawerOpen := false
    selectedMenuOpen := false }

/-- `handleModeChange` (lines 245-249). -/
def handleModeChange (s : AppState) (nextMode : Mode) : AppState :=
  if nextMode = s.mode then s
  else resetUiState { s with mode := nextMode }

/-- Toast text shown when the 10-document limit is hit (line 259). -/
def contextLimitToast : String :=
  "Лимит контекста: 10 документов. Уберите один документ, чтобы добавить новый."

/-- `handleDocToggle` (lines 251-264). -/
def handleDocToggle (s : AppState) (doc : SelectedDocument) : AppState :=
  let alreadySelected := s.selectedDocs.any (fun item => item.id == doc.id)
  if alreadySelected then
    { s with selectedDocs := s.selectedDocs.filter (fun item => item.id != doc.id) }
  else if 10 ≤ s.selectedDocs.length then
    { s with toast := some contextLimitToast }
  else
    { s with selectedDocs := s.selectedDocs ++ [doc] }

/-- The per-document remove button in the selected-documents dropdown
(line 490): `setSelectedDocs((prev) => prev.filter((item) => item.id !== doc.id))`. -/
def removeDoc (s : AppState) (id : String) : AppState :=
  { s with selectedDocs := s.selectedDocs.filter (fun item => item.id != id) }

/-- The membership test used by the UI (`selectedDocs.some((item) =>
item.id === doc.id)`, lines 252 and 382). -/
def isSelectedId (s : AppState) (i : String) : Bool :=
  s.selectedDocs.any (fun item => item.id == i)

/-- The three operations the document selector exposes: toggle (drawer
button), remove (dropdown button) and clear (part of `resetUiState`). -/
inductive DocOp where
  | toggle (doc : SelectedDocument)
  | remove (id : String)
  | clear

/-- Apply one selector operation. -/
def applyDocOp (s : AppState) : DocOp → AppState
  | DocOp.toggle doc => handleDocToggle s doc
  | DocOp.remove i => removeDoc s i
  | DocOp.clear => { s with selectedDocs := [] }

/-- Run a sequence of selector operations. -/
def docOpsRun (s : AppState) (ops : List DocOp) : AppState :=
  ops.foldl applyDocOp s

/-- `clearChat` (lines 376-378). -/
def clearChat (s : AppState) : AppState :=
  { s with messages := [] }

/-- One entry of the `messages` array in the outbound JSON payload
(line 308): `nextMessages.map(({ role, content }) => ({ role, content }))`. -/
structure WireMessage where
  role : Role
  content : String
  deriving DecidableEq

/-- The outbound JSON payload (lines 306-311). -/
structure Payload where
  mode : Mode
  messages : List WireMessage
  selected_documents : List String
  stream : Bool
  deriving DecidableEq

/-- The outbound POST request: target URL plus JSON payload. -/
structure Request where
  url : String
  payload : Payload
  deriving DecidableEq

/-- Result of `response.json()`: either the body failed to parse, or it
parsed and the optional `reply` field had the given value (`none` covers a
missing field and non-object bodies, matching `data?.reply`). -/
inductive JsonBody where
  | unparseable
  | parsed (reply : Option String)
  deriving DecidableEq

/-- An HTTP response as observed by the dispatcher. -/
structure HttpResponse where
  status : Nat
  statusText : String
  body : JsonBody
  deriving DecidableEq

/-- The exceptions `fetch`/`response.json` can throw into the catch block
(lines 354-365): the abort triggered by the 15 s timeout, a `TypeError`
with its message, or anything else. -/
inductive FetchError where
  | abortError
  | typeError (msg : String)
  | other
  deriving DecidableEq

/-- Outcome of the network interaction, supplied to the dispatcher as an
oracle: either a response arrived or an exception was thrown. -/
inductive NetResult where
  | response (r : HttpResponse)
  | failure (e : FetchError)
  deriving DecidableEq

/-- `response.ok`: status in the inclusive range 200-299. -/
def responseOk (r : HttpResponse) : Bool :=
  decide (200 ≤ r.status) && decide (r.status ≤ 299)

/-- Reason string of the fast-fail path (line 289). -/
def notConfiguredReason : String :=
  "Причина: не задан адрес API (VITE_API_BASE_URL или VITE_CHAT_ENDPOINT)."

/-- Reason string for a non-2xx response (line 317). -/
def httpErrorReason (status : Nat) (statusText : String) : String :=
  "Причина: сервер API вернул HTTP " ++ toString status ++ " " ++ statusText ++ "."

/-- Reason string for an unparseable body or missing reply (lines 329, 340). -/
def invalidResponseReason : String :=
  "Причина: API вернул некорректный ответ (не JSON или отсутствует поле reply)."

/-- Reason string for the timeout classification (line 357). -/
def timeoutReason : String :=
  "Причина: превышено время ожидания ответа от API."

/-- Reason string for a DNS/resolution failure (line 361). -/
def dnsReason : String :=
  "Причина: адрес API не найден (ошибка DNS или неверный URL)."

/-- Default reason: connection refused / server down (lines 355, 363). -/
def connectionReason : String :=
  "Причина: не удалось подключиться к серверу API (соединение отклонено или сервер не запущен)."

/-- Does the character list `l` start with `pre`? (helper for `strIncludes`). -/
def charsStartWith : List Char → List Char → Bool
  | _, [] => true
  | [], _ :: _ => false
  | c :: cs, p :: ps => c == p && charsStartWith cs ps

/-- Does the character list contain `pat` as a contiguous run? -/
def charsContain (pat : List Char) : List Char → Bool
  | [] => pat.isEmpty
  | c :: cs => charsStartWith (c :: cs) pat || charsContain pat cs

/-- JS `String.prototype.includes`. -/
def strIncludes (s pat : String) : Bool :=
  charsContain pat.toList s.toList

/-- The catch-block classification (lines 354-365): timeout for an abort,
DNS or connection reasons for a `TypeError` depending on its lowercased
message, connection reason otherwise. -/
def classifyFetchError : FetchError → String
  | FetchError.abortError => timeoutReason
  | FetchError.typeError msg =>
    let m := msg.toLower
    if strIncludes m "name not resolved" || strIncludes m "dns" then dnsReason
    else if strIncludes m "failed to fetch" then connectionReason
    else connectionReason
  | FetchError.other => connectionReason

/-- Append an error message built by `createErrorMessage` and drop the
loading flag (the common `setMessages((prev) => [...prev, errorMessage])`
followed by the `finally` block's `setIsLoading(false)`). -/
def finishWithError (s : AppState) (reason : String) (urlValue : Option String)
    (req : Option Request) : AppState × Option Request :=
  ({ s with
      messages := s.messages ++ [createErrorMessage s.nextId reason urlValue]
      nextId := s.nextId + 1
      isLoading := false }, req)

/-- The optimistic user message built at the top of `submitMessage`
(lines 276-280). -/
def userMessageOf (s : AppState) : ChatMessage :=
  { id := s.nextId, role := Role.user, content := strTrim s.inputValue }

/-- The outbound request constructed at lines 300-313: the URL plus the JSON
body `{mode, messages: nextMessages.map(({role, content}) => ({role,
content})), selected_documents, stream: false}`.  Note that the `map` keeps
every entry of `nextMessages`, error-role entries included. -/
def buildRequest (s : AppState) (url : String) : Request :=
  { url := url
    payload :=
      { mode := s.mode
        messages :=
          (s.messages ++ [userMessageOf s]).map (fun m => { role := m.role, content := m.content })
        selected_documents :=
          if s.mode = Mode.rag then s.selectedDocs.map SelectedDocument.id else []
        stream := false } }

/-- `submitMessage` (lines 272-374).  Returns the final state and the
outbound request, `none` when no network call was issued.  The oracle `net`
stands for the outcome of `fetch`/`response.json()`. -/
def submitMessage (cfg : Config) (s : AppState) (net : NetResult) :
    AppState × Option Request :=
  if canSend s then
    let nextMessages := s.messages ++ [userMessageOf s]
    let s1 : AppState :=
      { s with
        messages := nextMessages
        inputValue := ""
        isLoading := true
        nextId := s.nextId + 1 }
    match requestUrl cfg with
    | none => finishWithError s1 notConfiguredReason none none
    | some url =>
      let req : Request := buildRequest s url
      match net with
      | NetResult.response r =>
        if !responseOk r then
          finishWithError s1 (httpErrorReason r.status r.statusText) (some url) (some req)
        else
          match r.body with
          | JsonBody.unparseable =>
            finishWithError s1 invalidResponseReason (some url) (some req)
          | JsonBody.parsed replyText =>
            match replyText with
            | none => finishWithError s1 invalidResponseReason (some url) (some req)
            | some t =>
              if t = "" then
                finishWithError s1 invalidResponseReason (some url) (some req)
              else
                ({ s1 with
                    messages := s1.messages ++
                      [{ id := s1.nextId, role := Role.assistant, content := t }]
                    nextId := s1.nextId + 1
                    isLoading := false }, some req)
      | NetResult.failure e =>
        finishWithError s1 (classifyFetchError e) (some url) (some req)
  else (s, none)

/-! ### Theme store (src/src/theme module, bundled in src/src/main.tsx) -/

/-- `type Theme = 'light' | 'dark'`. -/
inductive Theme where
  | light
  | dark
  deriving DecidableEq

/-- Serialisation used when persisting under the storage key. -/
def themeToString : Theme → String
  | Theme.light => "light"
  | Theme.dark => "dark"

/-- The check `saved === 'light' || saved === 'dark'` applied to the raw
stored value (theme module, `getPreferredTheme` and `handleChange`). -/
def parseStoredTheme : Option String → Option Theme
  | some v =>
    if v = "light" then some Theme.light
    else if v = "dark" then some Theme.dark
    else none
  | none => none

/-- `getPreferredTheme`: explicit stored choice wins, otherwise the system
signal, defaulting to light. -/
def getPreferredTheme (saved : Option String) (prefersDark : Bool) : Theme :=
  match parseStoredTheme saved with
  | some t => t
  | none => if prefersDark then Theme.dark else Theme.light

/-- Theme store state: the React `theme` state plus the localStorage value
under the namespaced key. -/
structure ThemeState where
  theme : Theme
  storage : Option String
  deriving DecidableEq

/-- The persist effect (`useEffect` on `[theme]`): writes the current theme
to storage after every theme change. -/
def persistTheme (st : ThemeState) : ThemeState :=
  { st with storage := some (themeToString st.theme) }

/-- Events the theme store reacts to: an explicit `setTheme` call, the
`toggleTheme` affordance, and a system preference change notification. -/
inductive ThemeEvent where
  | setThemeChoice (t : Theme)
  | toggleThemeEvent
  | systemChange (matchesDark : Bool)

/-- One step of the theme store.  A system change (`handleChange`) first
reads the stored value and returns without acting when it parses as an
explicit choice; any theme change is followed by the persist effect. -/
def themeStep (st : ThemeState) : ThemeEvent → ThemeState
  | ThemeEvent.setThemeChoice t => persistTheme { st with theme := t }
  | ThemeEvent.toggleThemeEvent =>
    persistTheme
      { st with theme := if st.theme = Theme.light then Theme.dark else Theme.light }
  | ThemeEvent.systemChange matchesDark =>
    match parseStoredTheme st.storage with
    | some _ => st
    | none =>
      persistTheme { st with theme := if matchesDark then Theme.dark else Theme.light }

/-- Run a list of system preference change notifications. -/
def systemChangesRun (st : ThemeState) (ms : List Bool) : ThemeState :=
  ms.foldl (fun acc m => themeStep acc (ThemeEvent.systemChange m)) st

/-! ### Concrete inputs used by witnesses and counterexamples -/

/-- A configured environment: base `http://x`, path `/api/chat`. -/
def cfgX : Config := { apiBase := "http://x", chatEndpoint := "/api/chat" }

/-- An environment with the API base unset. -/
def cfgUnset : Config := { apiBase := "", chatEndpoint := "/api/chat" }

/-- Idle state with `"hi"` typed into the composer. -/
def baseState : AppState :=
  { mode := Mode.gpt
    messages := []
    inputValue := "hi"
    isLoading := false
    stickToBottom := true
    isDrawerOpen := false
    selectedDocs := []
    selectedMenuOpen := false
    toast := none
    nextId := 0 }

/-- A numbered document fixture. -/
def mkDoc (n : Nat) : SelectedDocument :=
  { id := "doc-" ++ toString n, title := "Doc " ++ toString n, category := "cat" }

/-- State with ten documents already selected. -/
def fullState : AppState :=
  { baseState with selectedDocs := (List.range 10).map mkDoc }

/-- State whose log already holds one error-role message from a previous
failed attempt. -/
def sErr : AppState :=
  { baseState with
    messages := [{ id := 0, role := Role.error, content := "boom",
                   meta := some "http://x/api/chat" }]
    nextId := 1 }

/-- A 200 response carrying `{"reply": "hello"}`. -/
def rOK : HttpResponse :=
  { status := 200, statusText := "OK", body := JsonBody.parsed (some "hello") }

/-- The network outcome delivering `rOK`. -/
def netOK : NetResult :=
  NetResult.response rOK

/-! ### Theorems -/

/-- Structural description of one dispatcher run that passed the send guard:
the optimistic user message is appended first, followed by exactly one
outcome message `m`; the outbound request is issued exactly when the URL is
configured, and is then `buildRequest`; and `m` is pinned down on the
fast-fail path and on the 2xx paths. -/
theorem submitMessage_run (cfg : Config) (s : AppState) (net : NetResult)
    (h : canSend s = true) :
    ∃ m : ChatMessage,
      (submitMessage cfg s net).1.messages = s.messages ++ [userMessageOf s, m] ∧
      (submitMessage cfg s net).2 = (requestUrl cfg).map (buildRequest s) ∧
      (m.role = Role.assistant ∨ m.role = Role.error) ∧
      (requestUrl cfg = none →
        m = createErrorMessage (s.nextId + 1) notConfiguredReason none) ∧
      (∀ u r, requestUrl cfg = some u → net = NetResult.response r → responseOk r = true →
        ((r.body = JsonBody.unparseable ∨ r.body = JsonBody.parsed none ∨
            r.body = JsonBody.parsed (some "")) →
          m = createErrorMessage (s.nextId + 1) invalidResponseReason (some u)) ∧
        (∀ t, r.body = JsonBody.parsed (some t) → ¬t = "" →
          m = { id := s.nextId + 1, role := Role.assistant, content := t, meta := none })) := by
  simp only [submitMessage, h, if_true]
  cases hcfg : requestUrl cfg with
  | none =>
    refine ⟨createErrorMessage (s.nextId + 1) notConfiguredReason none,
      by simp [finishWithError], by simp [hcfg, finishWithError], Or.inr rfl,
      fun _ => rfl, ?_⟩
    intro u r hu
    cases hu
  | some url =>
    cases net with
    | failure e =>
      refine ⟨createErrorMessage (s.nextId + 1) (classifyFetchError e) (some url),
        by simp [finishWithError], by simp [hcfg, finishWithError], Or.inr rfl, ?_, ?_⟩
      · intro hnone
        cases hnone
      · intro u r hu hnet
        simp at hnet
    | response r =>
      cases hok : responseOk r with
      | false =>
        refine ⟨createErrorMessage (s.nextId + 1)
            (httpErrorReason r.status r.statusText) (some url),
          by simp [hok, finishWithError], by simp [hok, hcfg, finishWithError],
          Or.inr rfl, ?_, ?_⟩
        · intro hnone
          cases hnone
        · intro u rr hu hnet hok2
          obtain rfl : rr = r := by injection hnet with hh; exact hh.symm
          rw [hok] at hok2
          cases hok2
      | true =>
        cases hbody : r.body with
        | unparseable =>
          refine ⟨createErrorMessage (s.nextId + 1) invalidResponseReason (some url),
            by simp [hok, hbody, finishWithError],
            by simp [hok, hbody, hcfg, finishWithError], Or.inr rfl, ?_, ?_⟩
          · intro hnone
            cases hnone
          · intro u rr hu hnet hok2
            obtain rfl : rr = r := by injection hnet with hh; exact hh.symm
            obtain rfl : u = url := by injection hu with hh; exact hh.symm
            refine ⟨fun _ => rfl, ?_⟩
            intro t hbt
            rw [hbody] at hbt
            cases hbt
        | parsed replyText =>
          cases replyText with
          | none =>
            refine ⟨createErrorMessage (s.nextId + 1) invalidResponseReason (some url),
              by simp [hok, hbody, finishWithError],
              by simp [hok, hbody, hcfg, finishWithError], Or.inr rfl, ?_, ?_⟩
            · intro hnone
              cases hnone
            · intro u rr hu hnet hok2
              obtain rfl : rr = r := by injection hnet with hh; exact hh.symm
              obtain rfl : u = url := by injection hu with hh; exact hh.symm
              refine ⟨fun _ => rfl, ?_⟩
              intro t hbt
              rw [hbody] at hbt
              simp at hbt
          | some t =>
            by_cases ht : t = ""
            · refine ⟨createErrorMessage (s.nextId + 1) invalidResponseReason (some url),
                by simp [hok, hbody, ht, finishWithError],
                by simp [hok, hbody, ht, hcfg, finishWithError], Or.inr rfl, ?_, ?_⟩
              · intro hnone
                cases hnone
              · intro u rr hu hnet hok2
                obtain rfl : rr = r := by injection hnet with hh; exact hh.symm
                obtain rfl : u = url := by injection hu with hh; exact hh.symm
                refine ⟨fun _ => rfl, ?_⟩
                intro t2 hbt hnt
                rw [hbody] at hbt
                obtain rfl : t = t2 := by injection hbt with hh; injection hh
                exact absurd ht.symm (Ne.symm hnt)
            · refine ⟨{ id := s.nextId + 1, role := Role.assistant, content := t, meta := none },
                by simp [hok, hbody, ht, finishWithError],
                by simp [hok, hbody, ht, hcfg, finishWithError], Or.inl rfl, ?_, ?_⟩
              · intro hnone
                cases hnone
              · intro u rr hu hnet hok2
                obtain rfl : rr = r := by injection hnet with hh; exact hh.symm
                obtain rfl : u = url := by injection hu with hh; exact hh.symm
                constructor
                · intro hdis
                  rcases hdis with h1 | h2 | h3
                  · rw [hbody] at h1; cases h1
                  · rw [hbody] at h2; simp at h2
                  · rw [hbody] at h3
                    obtain rfl : t = "" := by injection h3 with hh; injection hh
                    exact absurd rfl ht
                · intro t2 hbt hnt
                  rw [hbody] at hbt
                  obtain rfl : t = t2 := by injection hbt with hh; injection hh
                  rfl

/-- C10: clearing the chat empties the message list and leaves the document
selection, the mode, and the rest of the state unchanged. -/
theorem clearChat_only_touches_messages (s : AppState) :
    (clearChat s).messages = [] ∧
    (clearChat s).selectedDocs = s.selectedDocs ∧
    (clearChat s).mode = s.mode ∧
    (clearChat s).inputValue = s.inputValue ∧
    (clearChat s).isLoading = s.isLoading ∧
    (clearChat s).toast = s.toast ∧
    (clearChat s).nextId = s.nextId :=
  ⟨rfl, rfl, rfl, rfl, rfl, rfl, rfl⟩

/-- C6: switching to a different mode always yields an empty message log and
an empty document selection, whatever the prior state. -/
theorem handleModeChange_resets_history_and_selection (s : AppState) (nextMode : Mode)
    (h : nextMode ≠ s.mode) :
    (handleModeChange s nextMode).messages = [] ∧
    (handleModeChange s nextMode).selectedDocs = [] ∧
    (handleModeChange s nextMode).mode = nextMode := by
  simp [handleModeChange, resetUiState, h]

/-- Witness for C6: switching from `gpt` to `rag` at a concrete state. -/
theorem handleModeChange_resets_history_and_selection_witness :
    Mode.rag ≠ baseState.mode ∧
    ((handleModeChange baseState Mode.rag).messages = [] ∧
     (handleModeChange baseState Mode.rag).selectedDocs = [] ∧
     (handleModeChange baseState Mode.rag).mode = Mode.rag) :=
  ⟨by decide, handleModeChange_resets_history_and_selection baseState Mode.rag (by decide)⟩

/-- C1: every submission that passes the send guard appends the optimistic
user message and then exactly one further message, which is an assistant
message or an error message, on every path of the dispatcher. -/
theorem submitMessage_appends_one_outcome (cfg : Config) (s : AppState) (net : NetResult)
    (h : canSend s = true) :
    ∃ u m, (submitMessage cfg s net).1.messages = s.messages ++ [u, m] ∧
      u.role = Role.user ∧ (m.role = Role.assistant ∨ m.role = Role.error) := by
  obtain ⟨m, hmsg, _, hrole, _, _⟩ := submitMessage_run cfg s net h
  exact ⟨userMessageOf s, m, hmsg, rfl, hrole⟩

/-- Witness for C1: a configured submission receiving `{"reply": "hello"}`. -/
theorem submitMessage_appends_one_outcome_witness :
    canSend baseState = true ∧
    ∃ u m, (submitMessage cfgX baseState netOK).1.messages = baseState.messages ++ [u, m] ∧
      u.role = Role.user ∧ (m.role = Role.assistant ∨ m.role = Role.error) :=
  ⟨by decide, submitMessage_appends_one_outcome cfgX baseState netOK (by decide)⟩

/-- C2: when the trimmed input is non-empty and no response is in flight,
exactly one user message carrying the trimmed input is appended, before the
network request is built (the payload already contains it); otherwise the
submission does nothing and no request is issued. -/
theorem submit_optimistic_user_message (cfg : Config) (s : AppState) (net : NetResult) :
    (canSend s = true →
      ∃ m, (submitMessage cfg s net).1.messages = s.messages ++ [userMessageOf s, m] ∧
        (userMessageOf s).role = Role.user ∧
        (userMessageOf s).content = strTrim s.inputValue ∧
        ¬m.role = Role.user ∧
        ∀ req, (submitMessage cfg s net).2 = some req →
          req.payload.messages =
            (s.messages ++ [userMessageOf s]).map
              (fun msg => { role := msg.role, content := msg.content })) ∧
    (canSend s = false → submitMessage cfg s net = (s, none)) := by
  constructor
  · intro h
    obtain ⟨m, hmsg, hreq, hrole, _, _⟩ := submitMessage_run cfg s net h
    refine ⟨m, hmsg, rfl, rfl, ?_, ?_⟩
    · rcases hrole with ha | he
      · simp [ha]
      · simp [he]
    · intro req hr
      rw [hreq] at hr
      cases hcfg : requestUrl cfg with
      | none => rw [hcfg] at hr; cases hr
      | some u =>
        rw [hcfg] at hr
        obtain rfl : buildRequest s u = req := by injection hr
        rfl
  · intro h
    simp [submitMessage, h]

/-- Witness for C2: a concrete guarded submission. -/
theorem submit_optimistic_user_message_witness :
    (canSend baseState = true →
      ∃ m, (submitMessage cfgX baseState netOK).1.messages =
          baseState.messages ++ [userMessageOf baseState, m] ∧
        (userMessageOf baseState).role = Role.user ∧
        (userMessageOf baseState).content = strTrim baseState.inputValue ∧
        ¬m.role = Role.user ∧
        ∀ req, (submitMessage cfgX baseState netOK).2 = some req →
          req.payload.messages =
            (baseState.messages ++ [userMessageOf baseState]).map
              (fun msg => { role := msg.role, content := msg.content })) ∧
    (canSend baseState = false → submitMessage cfgX baseState netOK = (baseState, none)) :=
  submit_optimistic_user_message cfgX baseState netOK

/-- C7: with the base or path unset, a guarded submission issues no network
call and the log gains exactly the user message followed by one error
message whose reason is the "not configured" text. -/
theorem notConfigured_fast_fail (cfg : Config) (s : AppState) (net : NetResult)
    (hcfg : requestUrl cfg = none) (h : canSend s = true) :
    (submitMessage cfg s net).2 = none ∧
    (submitMessage cfg s net).1.messages =
      s.messages ++ [userMessageOf s,
        createErrorMessage (s.nextId + 1) notConfiguredReason none] ∧
    (userMessageOf s).role = Role.user ∧
    (createErrorMessage (s.nextId + 1) notConfiguredReason none).role = Role.error ∧
    (createErrorMessage (s.nextId + 1) notConfiguredReason none).content =
      notConfiguredReason ∧
    (createErrorMessage (s.nextId + 1) notConfiguredReason none).meta =
      some "URL не задан" := by
  obtain ⟨m, hmsg, hreq, _, hnone, _⟩ := submitMessage_run cfg s net h
  obtain rfl := hnone hcfg
  refine ⟨?_, hmsg, rfl, rfl, rfl, rfl⟩
  rw [hreq, hcfg]
  rfl

/-- Witness for C7: base unset, input `"hi"`. -/
theorem notConfigured_fast_fail_witness :
    requestUrl cfgUnset = none ∧ canSend baseState = true ∧
    ((submitMessage cfgUnset baseState netOK).2 = none ∧
     (submitMessage cfgUnset baseState netOK).1.messages =
       baseState.messages ++ [userMessageOf baseState,
         createErrorMessage (baseState.nextId + 1) notConfiguredReason none] ∧
     (userMessageOf baseState).role = Role.user ∧
     (createErrorMessage (baseState.nextId + 1) notConfiguredReason none).role =
       Role.error ∧
     (createErrorMessage (baseState.nextId + 1) notConfiguredReason none).content =
       notConfiguredReason ∧
     (createErrorMessage (baseState.nextId + 1) notConfiguredReason none).meta =
       some "URL не задан") :=
  ⟨by decide, by decide, notConfigured_fast_fail cfgUnset baseState netOK (by decide) (by decide)⟩

/-- C8: on a 2xx response, an unparseable body or a missing or empty `reply`
appends exactly one error message and no assistant message, while a
non-empty `reply` appends exactly one assistant message with that exact
text. -/
theorem ok_response_reply_classification (cfg : Config) (s : AppState)
    (u : String) (r : HttpResponse)
    (h : canSend s = true) (hcfg : requestUrl cfg = some u) (hok : responseOk r = true) :
    ((r.body = JsonBody.unparseable ∨ r.body = JsonBody.parsed none ∨
        r.body = JsonBody.parsed (some "")) →
      (submitMessage cfg s (NetResult.response r)).1.messages =
        s.messages ++ [userMessageOf s,
          createErrorMessage (s.nextId + 1) invalidResponseReason (some u)] ∧
      (createErrorMessage (s.nextId + 1) invalidResponseReason (some u)).role =
        Role.error) ∧
    (∀ t, r.body = JsonBody.parsed (some t) → ¬t = "" →
      (submitMessage cfg s (NetResult.response r)).1.messages =
        s.messages ++ [userMessageOf s,
          { id := s.nextId + 1, role := Role.assistant, content := t, meta := none }]) := by
  obtain ⟨m, hmsg, _, _, _, hclass⟩ := submitMessage_run cfg s (NetResult.response r) h
  obtain ⟨herr, hassist⟩ := hclass u r hcfg rfl hok
  constructor
  · intro hdis
    rw [herr hdis] at hmsg
    exact ⟨hmsg, rfl⟩
  · intro t hbt hnt
    rw [hassist t hbt hnt] at hmsg
    exact hmsg

/-- Witness for C8: a 200 response with `{"reply": "hello"}`. -/
theorem ok_response_reply_classification_witness :
    canSend baseState = true ∧ requestUrl cfgX = some "http://x/api/chat" ∧
    responseOk rOK = true ∧
    (((rOK.body = JsonBody.unparseable ∨ rOK.body = JsonBody.parsed none ∨
        rOK.body = JsonBody.parsed (some "")) →
      (submitMessage cfgX baseState (NetResult.response rOK)).1.messages =
        baseState.messages ++ [userMessageOf baseState,
          createErrorMessage (baseState.nextId + 1) invalidResponseReason
            (some "http://x/api/chat")] ∧
      (createErrorMessage (baseState.nextId + 1) invalidResponseReason
          (some "http://x/api/chat")).role = Role.error) ∧
    (∀ t, rOK.body = JsonBody.parsed (some t) → ¬t = "" →
      (submitMessage cfgX baseState (NetResult.response rOK)).1.messages =
        baseState.messages ++ [userMessageOf baseState,
          { id := baseState.nextId + 1, role := Role.assistant, content := t,
            meta := none }])) :=
  ⟨by decide, by decide, by decide,
    ok_response_reply_classification cfgX baseState "http://x/api/chat" rOK
      (by decide) (by decide) (by decide)⟩

/-- C3 counterexample: with an error message already in the log, the wire
`messages` array of the next request contains a `role: "error"` entry — the
dispatcher does not exclude error-role entries. -/
theorem payload_contains_error_role_entry :
    ((submitMessage cfgX sErr netOK).2.map
      (fun req => req.payload.messages.map WireMessage.role)) =
    some [Role.error, Role.user] := by decide

/-- C3 (amended): the payload's `messages` is the whole session log —
error-role entries included — mapped to `{role, content}`;
`selected_documents` is the selected ids when the mode is `rag` and empty
otherwise; `stream` is `false`. -/
theorem submit_request_payload_shape (cfg : Config) (s : AppState) (net : NetResult)
    (u : String) (h : canSend s = true) (hcfg : requestUrl cfg = some u) :
    (submitMessage cfg s net).2 = some (buildRequest s u) ∧
    (buildRequest s u).url = u ∧
    (buildRequest s u).payload.mode = s.mode ∧
    (buildRequest s u).payload.stream = false ∧
    (buildRequest s u).payload.selected_documents =
      (if s.mode = Mode.rag then s.selectedDocs.map SelectedDocument.id else []) ∧
    (buildRequest s u).payload.messages =
      (s.messages ++ [userMessageOf s]).map
        (fun msg => { role := msg.role, content := msg.content }) := by
  obtain ⟨m, _, hreq, _, _, _⟩ := submitMessage_run cfg s net h
  refine ⟨?_, rfl, rfl, rfl, rfl, rfl⟩
  rw [hreq, hcfg]
  rfl

/-- Witness for the amended C3. -/
theorem submit_request_payload_shape_witness :
    canSend sErr = true ∧ requestUrl cfgX = some "http://x/api/chat" ∧
    ((submitMessage cfgX sErr netOK).2 = some (buildRequest sErr "http://x/api/chat") ∧
     (buildRequest sErr "http://x/api/chat").url = "http://x/api/chat" ∧
     (buildRequest sErr "http://x/api/chat").payload.mode = sErr.mode ∧
     (buildRequest sErr "http://x/api/chat").payload.stream = false ∧
     (buildRequest sErr "http://x/api/chat").payload.selected_documents =
       (if sErr.mode = Mode.rag then sErr.selectedDocs.map SelectedDocument.id else []) ∧
     (buildRequest sErr "http://x/api/chat").payload.messages =
       (sErr.messages ++ [userMessageOf sErr]).map
         (fun msg => { role := msg.role, content := msg.content })) :=
  ⟨by decide, by decide,
    submit_request_payload_shape cfgX sErr netOK "http://x/api/chat" (by decide) (by decide)⟩

/-- Helper: every single selector operation preserves the 10-document bound. -/
theorem applyDocOp_preserves_limit (s : AppState) (op : DocOp)
    (h : s.selectedDocs.length <= 10) : (applyDocOp s op).selectedDocs.length <= 10 := by
  cases op with
  | toggle doc =>
    by_cases hsel : ∃ x ∈ s.selectedDocs, x.id = doc.id
    · have hstep : (applyDocOp s (DocOp.toggle doc)).selectedDocs
          = s.selectedDocs.filter (fun item => item.id != doc.id) := by
        simp [applyDocOp, handleDocToggle, hsel]
      rw [hstep]
      exact le_trans (List.length_filter_le _ _) h
    · by_cases hlen : 10 <= s.selectedDocs.length
      · have hstep : (applyDocOp s (DocOp.toggle doc)).selectedDocs = s.selectedDocs := by
          simp [applyDocOp, handleDocToggle, hsel, hlen]
        rw [hstep]
        exact h
      · have hstep : (applyDocOp s (DocOp.toggle doc)).selectedDocs
            = s.selectedDocs ++ [doc] := by
          simp [applyDocOp, handleDocToggle, hsel, hlen]
        rw [hstep]
        simp only [List.length_append, List.length_singleton]
        omega
  | remove i =>
    simp only [applyDocOp, removeDoc]
    exact le_trans (List.length_filter_le _ _) h
  | clear =>
    simp [applyDocOp]

/-- C4: under any sequence of toggle, remove and clear operations the
selection never exceeds 10 documents, and a toggle-on attempt at the limit
leaves the selection unchanged and raises the limit toast. -/
theorem doc_selection_limit (s : AppState) (ops : List DocOp) (doc : SelectedDocument)
    (h : s.selectedDocs.length <= 10) :
    (docOpsRun s ops).selectedDocs.length <= 10 ∧
    (s.selectedDocs.length = 10 → isSelectedId s doc.id = false →
      (handleDocToggle s doc).selectedDocs = s.selectedDocs ∧
      (handleDocToggle s doc).toast = some contextLimitToast) := by
  constructor
  · induction ops generalizing s with
    | nil => exact h
    | cons op rest ih => exact ih (applyDocOp s op) (applyDocOp_preserves_limit s op h)
  · intro hlen hsel
    have hsel2 : ¬ ∃ x ∈ s.selectedDocs, x.id = doc.id := by
      simpa [isSelectedId] using hsel
    have hge : 10 <= s.selectedDocs.length := le_of_eq hlen.symm
    have hstep : handleDocToggle s doc = { s with toast := some contextLimitToast } := by
      simp [handleDocToggle, hsel2, hge]
    rw [hstep]
    exact ⟨rfl, rfl⟩

/-- Witness for C4: ten selected documents, one further toggle-on attempt. -/
theorem doc_selection_limit_witness :
    fullState.selectedDocs.length <= 10 ∧
    ((docOpsRun fullState [DocOp.toggle (mkDoc 99)]).selectedDocs.length <= 10 ∧
     (fullState.selectedDocs.length = 10 → isSelectedId fullState (mkDoc 99).id = false →
       (handleDocToggle fullState (mkDoc 99)).selectedDocs = fullState.selectedDocs ∧
       (handleDocToggle fullState (mkDoc 99)).toast = some contextLimitToast)) :=
  ⟨by decide, doc_selection_limit fullState [DocOp.toggle (mkDoc 99)] (mkDoc 99) (by decide)⟩

/-- C5: within the documented invariant (at most 10 selected), toggling the
same document twice restores the selection, as the membership set keyed by
document id, to its prior state — in all three situations: initially
selected, unselected with room, and unselected at the limit. -/
theorem doc_toggle_twice_idempotent (s : AppState) (doc : SelectedDocument)
    (h : s.selectedDocs.length <= 10) (i : String) :
    isSelectedId (handleDocToggle (handleDocToggle s doc) doc) i = isSelectedId s i := by
  simp only [isSelectedId]
  by_cases hsel : ∃ x ∈ s.selectedDocs, x.id = doc.id
  · -- initially selected: the first toggle removes it, the second re-adds it
    have h1 : handleDocToggle s doc
        = { s with selectedDocs := s.selectedDocs.filter (fun item => item.id != doc.id) } := by
      simp [handleDocToggle, hsel]
    have hlt : (s.selectedDocs.filter (fun item => item.id != doc.id)).length < 10 := by
      obtain ⟨x, hx, hpx⟩ := hsel
      exact lt_of_lt_of_le
        (List.length_filter_lt_length_iff_exists.mpr ⟨x, hx, by simp [hpx]⟩) h
    have hnotle : ¬ (10 <= (s.selectedDocs.filter (fun item => item.id != doc.id)).length) :=
      Nat.not_le.mpr hlt
    have h2 : handleDocToggle
        { s with selectedDocs := s.selectedDocs.filter (fun item => item.id != doc.id) } doc
        = { s with selectedDocs :=
            s.selectedDocs.filter (fun item => item.id != doc.id) ++ [doc] } := by
      simp [handleDocToggle, hnotle]
    rw [h1, h2]
    rw [Bool.eq_iff_iff]
    simp only [List.any_eq_true, List.mem_append, List.mem_filter, List.mem_singleton,
      beq_iff_eq, bne_iff_ne]
    constructor
    · rintro ⟨x, hx, hxi⟩
      rcases hx with ⟨hxl, -⟩ | rfl
      · exact ⟨x, hxl, hxi⟩
      · obtain ⟨y, hy, hyd⟩ := hsel
        exact ⟨y, hy, by rw [hyd, hxi]⟩
    · rintro ⟨x, hx, hxi⟩
      by_cases hxd : x.id = doc.id
      · exact ⟨doc, Or.inr rfl, by rw [← hxd, hxi]⟩
      · exact ⟨x, Or.inl ⟨hx, hxd⟩, hxi⟩
  · by_cases hlen : 10 <= s.selectedDocs.length
    · -- at the limit: both attempts are rejected
      have h1 : handleDocToggle s doc = { s with toast := some contextLimitToast } := by
        simp [handleDocToggle, hsel, hlen]
      have h2 : handleDocToggle { s with toast := some contextLimitToast } doc
          = { s with toast := some contextLimitToast } := by
        simp [handleDocToggle, hsel, hlen]
      rw [h1, h2]
    · -- room available: add at the end, then remove
      have h1 : handleDocToggle s doc = { s with selectedDocs := s.selectedDocs ++ [doc] } := by
        simp [handleDocToggle, hsel, hlen]
      have h2 : handleDocToggle { s with selectedDocs := s.selectedDocs ++ [doc] } doc
          = { s with selectedDocs :=
              (s.selectedDocs ++ [doc]).filter (fun item => item.id != doc.id) } := by
        simp [handleDocToggle]
      have hall : ∀ a ∈ s.selectedDocs, (a.id != doc.id) = true := by
        intro a ha
        have hne : ¬ a.id = doc.id := fun hh => hsel ⟨a, ha, hh⟩
        simpa using hne
      have hfil : (s.selectedDocs ++ [doc]).filter (fun item => item.id != doc.id)
          = s.selectedDocs := by
        rw [List.filter_append, List.filter_eq_self.mpr hall]
        simp
      rw [h1, h2, hfil]

/-- Witness for C5: a double toggle at the full ten-document selection. -/
theorem doc_toggle_twice_idempotent_witness :
    fullState.selectedDocs.length ≤ 10 ∧
    isSelectedId (handleDocToggle (handleDocToggle fullState (mkDoc 99)) (mkDoc 99)) "doc-3"
      = isSelectedId fullState "doc-3" :=
  ⟨by decide, doc_toggle_twice_idempotent fullState (mkDoc 99) (by decide) "doc-3"⟩

/-- Helper: a run of system preference change notifications leaves the theme
store untouched whenever the stored value parses as an explicit choice. -/
theorem systemChangesRun_fixed (ms : List Bool) (st : ThemeState)
    (h : ¬ parseStoredTheme st.storage = none) : systemChangesRun st ms = st := by
  induction ms generalizing st with
  | nil => rfl
  | cons m rest ih =>
    have hstep : themeStep st (ThemeEvent.systemChange m) = st := by
      cases hps : parseStoredTheme st.storage with
      | none => exact absurd hps h
      | some x => simp [themeStep, hps]
    show systemChangesRun (themeStep st (ThemeEvent.systemChange m)) rest = st
    rw [hstep]
    exact ih st h

/-- C9: a system preference change notification is acted on exactly when no
explicit stored choice exists at that moment — it then sets the theme from
the notification — and an explicit choice, once stored, makes every later
system-level change a no-op, so the theme never changes again. -/
theorem theme_system_change_gated (st : ThemeState) (m : Bool) (t : Theme) (ms : List Bool) :
    (parseStoredTheme st.storage = none →
      (themeStep st (ThemeEvent.systemChange m)).theme =
        (if m then Theme.dark else Theme.light)) ∧
    (¬ parseStoredTheme st.storage = none →
      themeStep st (ThemeEvent.systemChange m) = st) ∧
    (systemChangesRun (themeStep st (ThemeEvent.setThemeChoice t)) ms).theme = t := by
  refine ⟨?_, ?_, ?_⟩
  · intro hp
    simp [themeStep, hp, persistTheme]
  · intro hp
    cases hps : parseStoredTheme st.storage with
    | none => exact absurd hps hp
    | some x => simp [themeStep, hps]
  · rw [systemChangesRun_fixed ms (themeStep st (ThemeEvent.setThemeChoice t)) ?_]
    · simp [themeStep, persistTheme]
    · cases t <;> simp [themeStep, persistTheme, themeToString, parseStoredTheme]

/-- Witness for C9: a store with no saved value, then an explicit dark
choice followed by two system notifications. -/
theorem theme_system_change_gated_witness :
    (parseStoredTheme (ThemeState.mk Theme.light none).storage = none →
      (themeStep (ThemeState.mk Theme.light none) (ThemeEvent.systemChange true)).theme =
        (if true then Theme.dark else Theme.light)) ∧
    (¬ parseStoredTheme (ThemeState.mk Theme.light none).storage = none →
      themeStep (ThemeState.mk Theme.light none) (ThemeEvent.systemChange true) =
        ThemeState.mk Theme.light none) ∧
    (systemChangesRun
        (themeStep (ThemeState.mk Theme.light none) (ThemeEvent.setThemeChoice Theme.dark))
        [false, true]).theme = Theme.dark :=
  theme_system_change_gated (ThemeState.mk Theme.light none) true Theme.dark [false, true]

end RagSite
